import Mathlib

set_option maxHeartbeats 1000000

/-!
Verification of the MCP approval-handshake scripts
(src/Python/New/MCP-Client/mcp-custom-create.py and
src/Python/New/MCP-Client/mcp-microsoft-learn-existing.py).

The scripts are straight-line orchestration: read configuration from the
environment, acquire a credential and clients, create or retrieve an agent,
open a conversation, submit a prompt, scan the response output for MCP
approval requests of the expected server label, auto-approve them, and
resubmit the approvals chained to the prior response.

The embedding below renders the approval filter loops as pure functions over
lists of output items, and each whole script as a function from the
environment and a record of external collaborators to a result together with
the ordered trace of environment reads and remote calls it performs.
-/

/-- An output item of a service response, as consumed by the scripts. The
scripts treat items as dynamically tagged records: the field type is always
present, while server_label and id are only meaningful on items tagged
mcp_approval_request; none models an absent field or a Python None value. -/
structure OutputItem where
  type : String
  server_label : Option String
  id : Option String
deriving DecidableEq

/-- The McpApprovalResponse payload built by both scripts (openai SDK type):
a tag, an approve flag, and the approval_request_id being answered. -/
structure McpApprovalResponse where
  type : String
  approve : Bool
  approval_request_id : String
deriving DecidableEq

/-- A response returned by responses.create: an identifier, the ordered
output items, and the rendered output_text used on the final round. -/
structure Response where
  id : String
  output : List OutputItem
  output_text : String
deriving DecidableEq

/-- An agent as returned by agents.create_version or agents.get. -/
structure Agent where
  id : String
  name : String
deriving DecidableEq

/-- A conversation as returned by conversations.create. -/
structure Conversation where
  id : String
deriving DecidableEq

/-- The MCPTool configuration built in mcp-custom-create.py, with the
Authorization header value carried in the authorization field. -/
structure MCPTool where
  server_label : String
  server_url : String
  require_approval : String
  authorization : String
deriving DecidableEq

/-- The PromptAgentDefinition built in mcp-custom-create.py. -/
structure PromptAgentDefinition where
  model : String
  instructions : String
  tools : List MCPTool
deriving DecidableEq

/-- Python truthiness of an optional string field: a missing value (None)
and the empty string are falsy, every other string is truthy. -/
def truthy : Option String → Bool
  | none => false
  | some s => s != ""

/-- The approval filter loop of mcp-custom-create.py (lines 74 to 85):
starting from the accumulated input_list, scan the output items in order and
append an auto-approval for every item whose type is mcp_approval_request,
whose server_label equals custom-mcp-bearer, and whose id is truthy. -/
def approvalLoopCreate (input_list : List McpApprovalResponse) :
    List OutputItem → List McpApprovalResponse
  | [] => input_list
  | item :: rest =>
    if item.type = "mcp_approval_request" then
      if item.server_label = some "custom-mcp-bearer" ∧ truthy item.id = true then
        approvalLoopCreate
          (input_list ++
            [{ type := "mcp_approval_response", approve := true,
               approval_request_id := item.id.getD "" }]) rest
      else approvalLoopCreate input_list rest
    else approvalLoopCreate input_list rest

/-- The approval filter loop of mcp-microsoft-learn-existing.py (lines 59 to
71): identical shape, with server label microsoft-learn-mcp. -/
def approvalLoopExisting (input_list : List McpApprovalResponse) :
    List OutputItem → List McpApprovalResponse
  | [] => input_list
  | item :: rest =>
    if item.type = "mcp_approval_request" then
      if item.server_label = some "microsoft-learn-mcp" ∧ truthy item.id = true then
        approvalLoopExisting
          (input_list ++
            [{ type := "mcp_approval_response", approve := true,
               approval_request_id := item.id.getD "" }]) rest
      else approvalLoopExisting input_list rest
    else approvalLoopExisting input_list rest

/-- The filter loop of mcp-custom-create.py with its literal server label
abstracted into the parameter expected_tool_label; otherwise a verbatim
transcription of that loop. -/
def approvalLoopCreateGen (expected_tool_label : String)
    (input_list : List McpApprovalResponse) :
    List OutputItem → List McpApprovalResponse
  | [] => input_list
  | item :: rest =>
    if item.type = "mcp_approval_request" then
      if item.server_label = some expected_tool_label ∧ truthy item.id = true then
        approvalLoopCreateGen expected_tool_label
          (input_list ++
            [{ type := "mcp_approval_response", approve := true,
               approval_request_id := item.id.getD "" }]) rest
      else approvalLoopCreateGen expected_tool_label input_list rest
    else approvalLoopCreateGen expected_tool_label input_list rest

/-- The filter loop of mcp-microsoft-learn-existing.py with its literal
server label abstracted into the parameter expected_tool_label; otherwise a
verbatim transcription of that loop. -/
def approvalLoopExistingGen (expected_tool_label : String)
    (input_list : List McpApprovalResponse) :
    List OutputItem → List McpApprovalResponse
  | [] => input_list
  | item :: rest =>
    if item.type = "mcp_approval_request" then
      if item.server_label = some expected_tool_label ∧ truthy item.id = true then
        approvalLoopExistingGen expected_tool_label
          (input_list ++
            [{ type := "mcp_approval_response", approve := true,
               approval_request_id := item.id.getD "" }]) rest
      else approvalLoopExistingGen expected_tool_label input_list rest
    else approvalLoopExistingGen expected_tool_label input_list rest

/-- Follows the spec words for collect_approvals, per item: if the tag is
ApprovalRequest and the tool label equals the expected label and the item
carries a non-empty request identifier, produce an Approval with approved
set to true for that identifier; otherwise nothing. -/
def approvalForSpec (expected_tool_label : String) (item : OutputItem) :
    Option McpApprovalResponse :=
  match item.id with
  | some rid =>
    if item.type = "mcp_approval_request" ∧
        item.server_label = some expected_tool_label ∧ rid ≠ "" then
      some { type := "mcp_approval_response", approve := true,
             approval_request_id := rid }
    else none
  | none => none

/-- The spec operation collect_approvals(response, expected_tool_label) as a
stable per-item filter over the output sequence. -/
def collectApprovalsSpec (expected_tool_label : String)
    (output : List OutputItem) : List McpApprovalResponse :=
  output.filterMap (approvalForSpec expected_tool_label)

/-- The boolean guard an item must pass to be approved: the conjunction of
the three nested conditions of the source loops. -/
def approvalMatch (expected_tool_label : String) (item : OutputItem) : Bool :=
  (item.type == "mcp_approval_request") &&
    (item.server_label == some expected_tool_label) && truthy item.id

/-- Errors visible at the process boundary: a missing environment key
(Python KeyError from os.environ) or a failure raised by a remote
collaborator, carried through unmodified. -/
inductive Err where
  | keyError (key : String)
  | remote (message : String)
deriving DecidableEq

/-- The input argument of responses.create: a plain prompt string on the
first round, a list of approval payloads on the resubmission round. -/
inductive ResponsesInput where
  | text (prompt : String)
  | items (input_list : List McpApprovalResponse)
deriving DecidableEq

/-- The remote interactions the scripts perform, with the arguments the
source passes at each site. -/
inductive RemoteCall where
  | defaultAzureCredential
  | aiProjectClient (endpoint : String)
  | getOpenAIClient
  | createVersion (agent_name : String) (definition : PromptAgentDefinition)
  | getAgent (agent_name : String)
  | conversationsCreate
  | responsesCreate (conversation : Option String) (input : ResponsesInput)
      (previous_response_id : Option String) (agent_name : String)
deriving DecidableEq

/-- An observable step of a run: reading an environment key, or issuing a
remote call. -/
inductive Event where
  | envRead (key : String)
  | call (c : RemoteCall)
deriving DecidableEq

/-- The external collaborators, one field per remote interaction; each may
fail with an Err, which the scripts never catch. -/
structure Collaborators where
  credential : Except Err Unit
  projectClient : String → Except Err Unit
  openaiClient : Except Err Unit
  createVersion : String → PromptAgentDefinition → Except Err Agent
  getAgent : String → Except Err Agent
  conversationsCreate : Except Err Conversation
  responsesCreate : Option String → ResponsesInput → Option String → String →
      Except Err Response

/-- The MCPTool literal of mcp-custom-create.py, with the bearer token read
from the environment spliced into the Authorization header. -/
def mcp_tool (bearer_token : String) : MCPTool :=
  { server_label := "custom-mcp-bearer",
    server_url := "https://app-ext-eus2-mcp-profx-01.azurewebsites.net/mcp",
    require_approval := "never",
    authorization := "Bearer " ++ bearer_token }

/-- The PromptAgentDefinition literal passed to agents.create_version in
mcp-custom-create.py. -/
def createAgentDefinition (model bearer_token : String) : PromptAgentDefinition :=
  { model := model,
    instructions := "Always use the configured MCP tools when answering queries",
    tools := [mcp_tool bearer_token] }

/-- The resubmission step shared by both scripts (lines 92 to 96 and 78 to
82): one unconditional call to responses.create with the collected approvals
as input and previous_response_id chaining the prior response; no
conversation argument is passed. Returns the collaborator result and the
trace of this step. -/
def resubmit (C : Collaborators) (input_list : List McpApprovalResponse)
    (previous_response_id : String) (agent_name : String) :
    Except Err Response × List Event :=
  (C.responsesCreate none (.items input_list) (some previous_response_id)
     agent_name,
   [Event.call (.responsesCreate none (.items input_list)
     (some previous_response_id) agent_name)])

/-- The whole of mcp-custom-create.py as a function of the environment and
the collaborators, returning the outcome (the final output_text on success,
the first error otherwise) together with the ordered trace of environment
reads and remote calls actually performed. Execution is strictly
sequential; the first failure ends the run. -/
def runCreate (env : String → Option String) (C : Collaborators) :
    Except Err String × List Event :=
  match env "AZURE_AI_PROJECT_ENDPOINT" with
  | none => (.error (.keyError "AZURE_AI_PROJECT_ENDPOINT"),
      [Event.envRead "AZURE_AI_PROJECT_ENDPOINT"])
  | some endpoint =>
  match C.credential with
  | .error e => (.error e,
      [Event.envRead "AZURE_AI_PROJECT_ENDPOINT",
       Event.call .defaultAzureCredential])
  | .ok _ =>
  match C.projectClient endpoint with
  | .error e => (.error e,
      [Event.envRead "AZURE_AI_PROJECT_ENDPOINT",
       Event.call .defaultAzureCredential,
       Event.call (.aiProjectClient endpoint)])
  | .ok _ =>
  match C.openaiClient with
  | .error e => (.error e,
      [Event.envRead "AZURE_AI_PROJECT_ENDPOINT",
       Event.call .defaultAzureCredential,
       Event.call (.aiProjectClient endpoint),
       Event.call .getOpenAIClient])
  | .ok _ =>
  match env "CUSTOM_MCP_BEARER_TOKEN" with
  | none => (.error (.keyError "CUSTOM_MCP_BEARER_TOKEN"),
      [Event.envRead "AZURE_AI_PROJECT_ENDPOINT",
       Event.call .defaultAzureCredential,
       Event.call (.aiProjectClient endpoint),
       Event.call .getOpenAIClient,
       Event.envRead "CUSTOM_MCP_BEARER_TOKEN"])
  | some bearer_token =>
  match env "AZURE_AI_MODEL_DEPLOYMENT_NAME" with
  | none => (.error (.keyError "AZURE_AI_MODEL_DEPLOYMENT_NAME"),
      [Event.envRead "AZURE_AI_PROJECT_ENDPOINT",
       Event.call .defaultAzureCredential,
       Event.call (.aiProjectClient endpoint),
       Event.call .getOpenAIClient,
       Event.envRead "CUSTOM_MCP_BEARER_TOKEN",
       Event.envRead "AZURE_AI_MODEL_DEPLOYMENT_NAME"])
  | some model =>
  match C.createVersion "FoundryNew-MCP-CustomAgent"
      (createAgentDefinition model bearer_token) with
  | .error e => (.error e,
      [Event.envRead "AZURE_AI_PROJECT_ENDPOINT",
       Event.call .defaultAzureCredential,
       Event.call (.aiProjectClient endpoint),
       Event.call .getOpenAIClient,
       Event.envRead "CUSTOM_MCP_BEARER_TOKEN",
       Event.envRead "AZURE_AI_MODEL_DEPLOYMENT_NAME",
       Event.call (.createVersion "FoundryNew-MCP-CustomAgent"
         (createAgentDefinition model bearer_token))])
  | .ok agent =>
  match C.conversationsCreate with
  | .error e => (.error e,
      [Event.envRead "AZURE_AI_PROJECT_ENDPOINT",
       Event.call .defaultAzureCredential,
       Event.call (.aiProjectClient endpoint),
       Event.call .getOpenAIClient,
       Event.envRead "CUSTOM_MCP_BEARER_TOKEN",
       Event.envRead "AZURE_AI_MODEL_DEPLOYMENT_NAME",
       Event.call (.createVersion "FoundryNew-MCP-CustomAgent"
         (createAgentDefinition model bearer_token)),
       Event.call .conversationsCreate])
  | .ok conversation =>
  match C.responsesCreate (some conversation.id) (.text "multiply 10 and 20")
      none agent.name with
  | .error e => (.error e,
      [Event.envRead "AZURE_AI_PROJECT_ENDPOINT",
       Event.call .defaultAzureCredential,
       Event.call (.aiProjectClient endpoint),
       Event.call .getOpenAIClient,
       Event.envRead "CUSTOM_MCP_BEARER_TOKEN",
       Event.envRead "AZURE_AI_MODEL_DEPLOYMENT_NAME",
       Event.call (.createVersion "FoundryNew-MCP-CustomAgent"
         (createAgentDefinition model bearer_token)),
       Event.call .conversationsCreate,
       Event.call (.responsesCreate (some conversation.id)
         (.text "multiply 10 and 20") none agent.name)])
  | .ok response =>
  match resubmit C (approvalLoopCreate [] response.output) response.id
      agent.name with
  | (result2, ev2) =>
    ((match result2 with
      | .error e => .error e
      | .ok response2 => .ok response2.output_text),
      [Event.envRead "AZURE_AI_PROJECT_ENDPOINT",
       Event.call .defaultAzureCredential,
       Event.call (.aiProjectClient endpoint),
       Event.call .getOpenAIClient,
       Event.envRead "CUSTOM_MCP_BEARER_TOKEN",
       Event.envRead "AZURE_AI_MODEL_DEPLOYMENT_NAME",
       Event.call (.createVersion "FoundryNew-MCP-CustomAgent"
         (createAgentDefinition model bearer_token)),
       Event.call .conversationsCreate,
       Event.call (.responsesCreate (some conversation.id)
         (.text "multiply 10 and 20") none agent.name)] ++ ev2)

/-- The whole of mcp-microsoft-learn-existing.py, analogously: both
environment keys are read at module scope before any remote interaction,
the agent is retrieved rather than created, and the handshake uses the
microsoft-learn-mcp filter loop. -/
def runExisting (env : String → Option String) (C : Collaborators) :
    Except Err String × List Event :=
  match env "AZURE_AI_PROJECT_ENDPOINT" with
  | none => (.error (.keyError "AZURE_AI_PROJECT_ENDPOINT"),
      [Event.envRead "AZURE_AI_PROJECT_ENDPOINT"])
  | some endpoint =>
  match env "AZURE_AI_AGENT_NAME" with
  | none => (.error (.keyError "AZURE_AI_AGENT_NAME"),
      [Event.envRead "AZURE_AI_PROJECT_ENDPOINT",
       Event.envRead "AZURE_AI_AGENT_NAME"])
  | some agent_name =>
  match C.credential with
  | .error e => (.error e,
      [Event.envRead "AZURE_AI_PROJECT_ENDPOINT",
       Event.envRead "AZURE_AI_AGENT_NAME",
       Event.call .defaultAzureCredential])
  | .ok _ =>
  match C.projectClient endpoint with
  | .error e => (.error e,
      [Event.envRead "AZURE_AI_PROJECT_ENDPOINT",
       Event.envRead "AZURE_AI_AGENT_NAME",
       Event.call .defaultAzureCredential,
       Event.call (.aiProjectClient endpoint)])
  | .ok _ =>
  match C.openaiClient with
  | .error e => (.error e,
      [Event.envRead "AZURE_AI_PROJECT_ENDPOINT",
       Event.envRead "AZURE_AI_AGENT_NAME",
       Event.call .defaultAzureCredential,
       Event.call (.aiProjectClient endpoint),
       Event.call .getOpenAIClient])
  | .ok _ =>
  match C.getAgent agent_name with
  | .error e => (.error e,
      [Event.envRead "AZURE_AI_PROJECT_ENDPOINT",
       Event.envRead "AZURE_AI_AGENT_NAME",
       Event.call .defaultAzureCredential,
       Event.call (.aiProjectClient endpoint),
       Event.call .getOpenAIClient,
       Event.call (.getAgent agent_name)])
  | .ok agent =>
  match C.conversationsCreate with
  | .error e => (.error e,
      [Event.envRead "AZURE_AI_PROJECT_ENDPOINT",
       Event.envRead "AZURE_AI_AGENT_NAME",
       Event.call .defaultAzureCredential,
       Event.call (.aiProjectClient endpoint),
       Event.call .getOpenAIClient,
       Event.call (.getAgent agent_name),
       Event.call .conversationsCreate])
  | .ok conversation =>
  match C.responsesCreate (some conversation.id)
      (.text "Please summarize latest features of Azure Cosmos DB from Microsoft Learn.")
      none agent.name with
  | .error e => (.error e,
      [Event.envRead "AZURE_AI_PROJECT_ENDPOINT",
       Event.envRead "AZURE_AI_AGENT_NAME",
       Event.call .defaultAzureCredential,
       Event.call (.aiProjectClient endpoint),
       Event.call .getOpenAIClient,
       Event.call (.getAgent agent_name),
       Event.call .conversationsCreate,
       Event.call (.responsesCreate (some conversation.id)
         (.text "Please summarize latest features of Azure Cosmos DB from Microsoft Learn.")
         none agent.name)])
  | .ok response =>
  match resubmit C (approvalLoopExisting [] response.output) response.id
      agent.name with
  | (result2, ev2) =>
    ((match result2 with
      | .error e => .error e
      | .ok response2 => .ok response2.output_text),
      [Event.envRead "AZURE_AI_PROJECT_ENDPOINT",
       Event.envRead "AZURE_AI_AGENT_NAME",
       Event.call .defaultAzureCredential,
       Event.call (.aiProjectClient endpoint),
       Event.call .getOpenAIClient,
       Event.call (.getAgent agent_name),
       Event.call .conversationsCreate,
       Event.call (.responsesCreate (some conversation.id)
         (.text "Please summarize latest features of Azure Cosmos DB from Microsoft Learn.")
         none agent.name)] ++ ev2)

/-- The environment keys read along a trace, in order. -/
def envReadsOf (trace : List Event) : List String :=
  trace.filterMap fun ev =>
    match ev with
    | .envRead k => some k
    | .call _ => none

/-- A complete environment holding every key either script reads. -/
def envAll : String → Option String := fun key =>
  if key = "AZURE_AI_PROJECT_ENDPOINT" then some "https://example-endpoint"
  else if key = "CUSTOM_MCP_BEARER_TOKEN" then some "token-1"
  else if key = "AZURE_AI_MODEL_DEPLOYMENT_NAME" then some "model-1"
  else if key = "AZURE_AI_AGENT_NAME" then some "existing-agent"
  else none

/-- The complete environment with one key removed. -/
def envDrop (dropped : String) : String → Option String :=
  fun key => if key = dropped then none else envAll key

/-- An environment holding exactly the key names the spec section 6 lists,
without the prefixes the source actually uses. -/
def envClaimedKeys : String → Option String := fun key =>
  if key = "PROJECT_ENDPOINT" then some "https://example-endpoint"
  else if key = "MCP_BEARER_TOKEN" then some "token-1"
  else if key = "MODEL_DEPLOYMENT_NAME" then some "model-1"
  else if key = "AGENT_NAME" then some "existing-agent"
  else none

/-- A sample agent returned by the agent service. -/
def agentA : Agent := { id := "agent-id-1", name := "agent-A" }

/-- A sample conversation returned by conversations.create. -/
def convA : Conversation := { id := "conv-1" }

/-- A first-round response holding one matching approval request and one
unrelated message item. -/
def respApproval : Response :=
  { id := "resp-1",
    output :=
      [{ type := "mcp_approval_request",
         server_label := some "custom-mcp-bearer", id := some "req-1" },
       { type := "message", server_label := none, id := none }],
    output_text := "" }

/-- A first-round response holding no approval request at all. -/
def respPlain : Response :=
  { id := "resp-1",
    output := [{ type := "message", server_label := none, id := none }],
    output_text := "" }

/-- A final response with rendered text and no further output items. -/
def respFinal : Response :=
  { id := "resp-2", output := [], output_text := "done" }

/-- Collaborators for which every remote interaction succeeds; the first
prompt round returns respApproval, the resubmission round returns
respFinal. -/
def CallOK : Collaborators :=
  { credential := .ok (), projectClient := fun _ => .ok (),
    openaiClient := .ok (),
    createVersion := fun _ _ => .ok agentA, getAgent := fun _ => .ok agentA,
    conversationsCreate := .ok convA,
    responsesCreate := fun _ _ previous_response_id _ =>
      if previous_response_id = none then .ok respApproval else .ok respFinal }

/-- Like CallOK, but the first prompt round returns a response with no
approval requests. -/
def CallPlain : Collaborators :=
  { CallOK with
    responsesCreate := fun _ _ previous_response_id _ =>
      if previous_response_id = none then .ok respPlain else .ok respFinal }

/-- Like CallOK, but conversations.create fails. -/
def CallConvFail : Collaborators :=
  { CallOK with
    conversationsCreate := .error (.remote "conversation service unavailable") }

theorem truthy_iff (o : Option String) :
    truthy o = true ↔ ∃ s, o = some s ∧ s ≠ "" := by
  cases o with
  | none => simp [truthy]
  | some s => simp [truthy]

theorem approvalLoopCreateGen_eq_spec (expected_tool_label : String)
    (output : List OutputItem) (input_list : List McpApprovalResponse) :
    approvalLoopCreateGen expected_tool_label input_list output =
      input_list ++ collectApprovalsSpec expected_tool_label output := by
  induction output generalizing input_list with
  | nil => simp [approvalLoopCreateGen, collectApprovalsSpec]
  | cons item rest ih =>
    by_cases hty : item.type = "mcp_approval_request"
    · by_cases hmatch : item.server_label = some expected_tool_label ∧
          truthy item.id = true
      · obtain ⟨s, hs, hne⟩ := (truthy_iff item.id).1 hmatch.2
        have hsome : approvalForSpec expected_tool_label item =
            some { type := "mcp_approval_response", approve := true,
                   approval_request_id := s } := by
          unfold approvalForSpec
          rw [hs]
          simp [hty, hmatch.1, hne]
        simp only [approvalLoopCreateGen, if_pos hty, if_pos hmatch, ih,
          collectApprovalsSpec, List.filterMap_cons, hsome, hs]
        simp
        exact ⟨hmatch.1, by simp [truthy, hne]⟩
      · have hnone : approvalForSpec expected_tool_label item = none := by
          unfold approvalForSpec
          cases hid : item.id with
          | none => rfl
          | some s =>
            have : ¬ (item.type = "mcp_approval_request" ∧
                item.server_label = some expected_tool_label ∧ s ≠ "") := by
              rintro ⟨h1, h2, h3⟩
              exact hmatch ⟨h2, (truthy_iff item.id).2 ⟨s, hid, h3⟩⟩
            simp [this]
        simp only [approvalLoopCreateGen, if_pos hty, if_neg hmatch,
          collectApprovalsSpec, List.filterMap_cons, hnone]
        exact ih input_list
    · have hnone : approvalForSpec expected_tool_label item = none := by
        unfold approvalForSpec
        cases hid : item.id with
        | none => rfl
        | some s => simp [hty]
      simp only [approvalLoopCreateGen, if_neg hty,
        collectApprovalsSpec, List.filterMap_cons, hnone]
      exact ih input_list

theorem approvalLoopExistingGen_eq_createGen (expected_tool_label : String)
    (output : List OutputItem) (input_list : List McpApprovalResponse) :
    approvalLoopExistingGen expected_tool_label input_list output =
      approvalLoopCreateGen expected_tool_label input_list output := by
  induction output generalizing input_list with
  | nil => rfl
  | cons item rest ih =>
    simp only [approvalLoopExistingGen, approvalLoopCreateGen]
    by_cases hty : item.type = "mcp_approval_request"
    · by_cases hmatch : item.server_label = some expected_tool_label ∧
          truthy item.id = true
      · simp only [if_pos hty, if_pos hmatch]; exact ih _
      · simp only [if_pos hty, if_neg hmatch]; exact ih _
    · simp only [if_neg hty]; exact ih _

theorem approvalLoopCreate_eq_gen (output : List OutputItem)
    (input_list : List McpApprovalResponse) :
    approvalLoopCreate input_list output =
      approvalLoopCreateGen "custom-mcp-bearer" input_list output := by
  induction output generalizing input_list with
  | nil => rfl
  | cons item rest ih =>
    simp only [approvalLoopCreate, approvalLoopCreateGen]
    by_cases hty : item.type = "mcp_approval_request"
    · by_cases hmatch : item.server_label = some "custom-mcp-bearer" ∧
          truthy item.id = true
      · simp only [if_pos hty, if_pos hmatch]; exact ih _
      · simp only [if_pos hty, if_neg hmatch]; exact ih _
    · simp only [if_neg hty]; exact ih _

theorem approvalLoopExisting_eq_gen (output : List OutputItem)
    (input_list : List McpApprovalResponse) :
    approvalLoopExisting input_list output =
      approvalLoopExistingGen "microsoft-learn-mcp" input_list output := by
  induction output generalizing input_list with
  | nil => rfl
  | cons item rest ih =>
    simp only [approvalLoopExisting, approvalLoopExistingGen]
    by_cases hty : item.type = "mcp_approval_request"
    · by_cases hmatch : item.server_label = some "microsoft-learn-mcp" ∧
          truthy item.id = true
      · simp only [if_pos hty, if_pos hmatch]; exact ih _
      · simp only [if_pos hty, if_neg hmatch]; exact ih _
    · simp only [if_neg hty]; exact ih _

theorem approvalLoopCreate_eq_spec (output : List OutputItem)
    (input_list : List McpApprovalResponse) :
    approvalLoopCreate input_list output =
      input_list ++ collectApprovalsSpec "custom-mcp-bearer" output := by
  rw [approvalLoopCreate_eq_gen, approvalLoopCreateGen_eq_spec]

theorem approvalLoopExisting_eq_spec (output : List OutputItem)
    (input_list : List McpApprovalResponse) :
    approvalLoopExisting input_list output =
      input_list ++ collectApprovalsSpec "microsoft-learn-mcp" output := by
  rw [approvalLoopExisting_eq_gen, approvalLoopExistingGen_eq_createGen,
    approvalLoopCreateGen_eq_spec]

theorem approvalMatch_iff (expected_tool_label : String) (item : OutputItem) :
    approvalMatch expected_tool_label item = true ↔
      item.type = "mcp_approval_request" ∧
      item.server_label = some expected_tool_label ∧ truthy item.id = true := by
  simp [approvalMatch, Bool.and_eq_true, and_assoc]

theorem approvalForSpec_none_of_not_match (expected_tool_label : String)
    (item : OutputItem) (h : approvalMatch expected_tool_label item = false) :
    approvalForSpec expected_tool_label item = none := by
  unfold approvalForSpec
  cases hid : item.id with
  | none => rfl
  | some s =>
    have : ¬ (item.type = "mcp_approval_request" ∧
        item.server_label = some expected_tool_label ∧ s ≠ "") := by
      rintro ⟨h1, h2, h3⟩
      have : approvalMatch expected_tool_label item = true :=
        (approvalMatch_iff _ _).2 ⟨h1, h2, (truthy_iff item.id).2 ⟨s, hid, h3⟩⟩
      rw [this] at h
      simp at h
    simp [this]

theorem approvalForSpec_some_of_match (expected_tool_label : String)
    (item : OutputItem) (h : approvalMatch expected_tool_label item = true) :
    ∃ s, item.id = some s ∧ s ≠ "" ∧
      approvalForSpec expected_tool_label item =
        some { type := "mcp_approval_response", approve := true,
               approval_request_id := s } := by
  obtain ⟨h1, h2, h3⟩ := (approvalMatch_iff _ _).1 h
  obtain ⟨s, hs, hne⟩ := (truthy_iff item.id).1 h3
  refine ⟨s, hs, hne, ?_⟩
  unfold approvalForSpec
  rw [hs]
  simp [h1, h2, hne]

theorem collectApprovalsSpec_map_ids (expected_tool_label : String)
    (output : List OutputItem) :
    (collectApprovalsSpec expected_tool_label output).map
        (fun a => a.approval_request_id) =
      (output.filter (approvalMatch expected_tool_label)).filterMap
        (fun item => item.id) := by
  induction output with
  | nil => rfl
  | cons item rest ih =>
    by_cases h : approvalMatch expected_tool_label item = true
    · obtain ⟨s, hs, hne, hsome⟩ := approvalForSpec_some_of_match _ _ h
      simp only [collectApprovalsSpec, List.filterMap_cons, hsome,
        List.filter_cons, h, if_pos]
      simp only [List.map_cons, List.filterMap_cons, hs]
      rw [← collectApprovalsSpec]
      rw [ih]
    · have hnone := approvalForSpec_none_of_not_match expected_tool_label item
        (Bool.eq_false_iff.2 h)
      simp only [collectApprovalsSpec, List.filterMap_cons, hnone,
        List.filter_cons]
      rw [Bool.eq_false_iff.2 h]
      simp only [Bool.false_eq_true, if_false]
      rw [← collectApprovalsSpec, ih]

theorem collectApprovalsSpec_length (expected_tool_label : String)
    (output : List OutputItem) :
    (collectApprovalsSpec expected_tool_label output).length =
      output.countP (approvalMatch expected_tool_label) := by
  induction output with
  | nil => rfl
  | cons item rest ih =>
    by_cases h : approvalMatch expected_tool_label item = true
    · obtain ⟨s, hs, hne, hsome⟩ := approvalForSpec_some_of_match _ _ h
      simp only [collectApprovalsSpec, List.filterMap_cons, hsome,
        List.length_cons, List.countP_cons, h, if_pos]
      rw [← collectApprovalsSpec, ih]
    · have hnone := approvalForSpec_none_of_not_match expected_tool_label item
        (Bool.eq_false_iff.2 h)
      simp only [collectApprovalsSpec, List.filterMap_cons, hnone,
        List.countP_cons]
      rw [Bool.eq_false_iff.2 h]
      simp only [Bool.false_eq_true, if_false, Nat.add_zero]
      rw [← collectApprovalsSpec, ih]

theorem approvalForSpec_congr (expected_tool_label : String)
    (a b : OutputItem) (hty : a.type = b.type)
    (hfields : a.type = "mcp_approval_request" →
      a.server_label = b.server_label ∧ a.id = b.id) :
    approvalForSpec expected_tool_label a =
      approvalForSpec expected_tool_label b := by
  by_cases hreq : a.type = "mcp_approval_request"
  · obtain ⟨hl, hi⟩ := hfields hreq
    unfold approvalForSpec
    rw [← hi, ← hl, ← hty]
  · have hreq2 : ¬ b.type = "mcp_approval_request" := by
      rw [← hty]; exact hreq
    unfold approvalForSpec
    cases ha : a.id <;> cases hb : b.id <;> simp [hreq, hreq2]

theorem collectApprovalsSpec_congr (expected_tool_label : String)
    {out1 out2 : List OutputItem}
    (h : List.Forall₂ (fun a b => a.type = b.type ∧
      (a.type = "mcp_approval_request" →
        a.server_label = b.server_label ∧ a.id = b.id)) out1 out2) :
    collectApprovalsSpec expected_tool_label out1 =
      collectApprovalsSpec expected_tool_label out2 := by
  induction h with
  | nil => rfl
  | cons hab _ ih =>
    simp only [collectApprovalsSpec, List.filterMap_cons,
      approvalForSpec_congr expected_tool_label _ _ hab.1 hab.2]
    rw [← collectApprovalsSpec, ← collectApprovalsSpec, ih]

theorem mem_collectApprovalsSpec (expected_tool_label : String)
    (output : List OutputItem) (a : McpApprovalResponse)
    (ha : a ∈ collectApprovalsSpec expected_tool_label output) :
    ∃ item ∈ output, item.type = "mcp_approval_request" ∧
      item.server_label = some expected_tool_label ∧
      item.id = some a.approval_request_id ∧ a.approve = true := by
  simp only [collectApprovalsSpec, List.mem_filterMap] at ha
  obtain ⟨item, hmem, hsome⟩ := ha
  unfold approvalForSpec at hsome
  cases hid : item.id with
  | none => rw [hid] at hsome; exact absurd hsome (by simp)
  | some rid =>
    rw [hid] at hsome
    have hsome2 : (if item.type = "mcp_approval_request" ∧
        item.server_label = some expected_tool_label ∧ rid ≠ "" then
        some { type := "mcp_approval_response", approve := true,
               approval_request_id := rid }
      else none) = some a := hsome
    by_cases hcond : item.type = "mcp_approval_request" ∧
        item.server_label = some expected_tool_label ∧ rid ≠ ""
    · rw [if_pos hcond] at hsome2
      have hrec := Option.some.inj hsome2
      refine ⟨item, hmem, hcond.1, hcond.2.1, ?_, ?_⟩
      · rw [hid, ← hrec]
      · rw [← hrec]
    · rw [if_neg hcond] at hsome2
      exact absurd hsome2 (by simp)

/-- Claim C1: for every output sequence and expected tool label, the
approval scan produces, for each output item, an approval with approve set
to true carrying the item request identifier exactly when the item type is
mcp_approval_request, its server label equals the expected label, and its
identifier is present and non-empty; every other item contributes nothing
and raises no error. The scan of each script equals the spec-side stable
per-item filter collectApprovalsSpec, at its own literal label and, through
the label-generalized transcriptions, at every label. -/
theorem c1_collect_approvals_per_item (expected_tool_label : String)
    (output : List OutputItem) :
    approvalLoopCreateGen expected_tool_label [] output =
      collectApprovalsSpec expected_tool_label output ∧
    approvalLoopExistingGen expected_tool_label [] output =
      collectApprovalsSpec expected_tool_label output ∧
    approvalLoopCreate [] output =
      collectApprovalsSpec "custom-mcp-bearer" output ∧
    approvalLoopExisting [] output =
      collectApprovalsSpec "microsoft-learn-mcp" output := by
  refine ⟨?_, ?_, ?_, ?_⟩
  · rw [approvalLoopCreateGen_eq_spec]; rfl
  · rw [approvalLoopExistingGen_eq_createGen, approvalLoopCreateGen_eq_spec]; rfl
  · rw [approvalLoopCreate_eq_spec]; rfl
  · rw [approvalLoopExisting_eq_spec]; rfl

/-- Claim C2: the approvals appear in the same relative order as the
matching items of the output sequence (stable filter), and no deduplication
happens: the emitted request identifiers are exactly the identifiers of the
matching items, in order and with multiplicity, and the number of approvals
equals the number of matching items, for both scripts. -/
theorem c2_stable_filter_no_dedup (output : List OutputItem) :
    ((approvalLoopCreate [] output).map fun a => a.approval_request_id) =
      ((output.filter (approvalMatch "custom-mcp-bearer")).filterMap
        fun item => item.id) ∧
    (approvalLoopCreate [] output).length =
      output.countP (approvalMatch "custom-mcp-bearer") ∧
    ((approvalLoopExisting [] output).map fun a => a.approval_request_id) =
      ((output.filter (approvalMatch "microsoft-learn-mcp")).filterMap
        fun item => item.id) ∧
    (approvalLoopExisting [] output).length =
      output.countP (approvalMatch "microsoft-learn-mcp") := by
  have hc : approvalLoopCreate [] output =
      collectApprovalsSpec "custom-mcp-bearer" output := by
    rw [approvalLoopCreate_eq_spec]; rfl
  have he : approvalLoopExisting [] output =
      collectApprovalsSpec "microsoft-learn-mcp" output := by
    rw [approvalLoopExisting_eq_spec]; rfl
  rw [hc, he]
  exact ⟨collectApprovalsSpec_map_ids _ _, collectApprovalsSpec_length _ _,
    collectApprovalsSpec_map_ids _ _, collectApprovalsSpec_length _ _⟩

/-- Claim C5: the approval scan is a pure deterministic transform: its whole
effect is appending freshly built approvals to its local accumulator, so it
reads and mutates nothing else; in particular applying it again to the same
response output (the embedding is a function of the output alone) yields
identical approvals, and two runs chained through the accumulator just
concatenate. -/
theorem c5_collect_pure (output : List OutputItem)
    (input_list : List McpApprovalResponse) :
    approvalLoopCreate input_list output =
      input_list ++ approvalLoopCreate [] output ∧
    approvalLoopExisting input_list output =
      input_list ++ approvalLoopExisting [] output := by
  constructor
  · rw [approvalLoopCreate_eq_spec, approvalLoopCreate_eq_spec]
    simp
  · rw [approvalLoopExisting_eq_spec, approvalLoopExisting_eq_spec]
    simp

/-- Claim C9: the approval-collection logic of the two scripts is one
function parameterized only by the expected server label: the two
label-generalized transcriptions agree at every label, the loop of
mcp-custom-create.py run at label microsoft-learn-mcp equals the loop of
mcp-microsoft-learn-existing.py, and vice versa at label custom-mcp-bearer. -/
theorem c9_two_scripts_same_filter (expected_tool_label : String)
    (output : List OutputItem) (input_list : List McpApprovalResponse) :
    approvalLoopCreateGen expected_tool_label input_list output =
      approvalLoopExistingGen expected_tool_label input_list output ∧
    approvalLoopCreateGen "microsoft-learn-mcp" input_list output =
      approvalLoopExisting input_list output ∧
    approvalLoopExistingGen "custom-mcp-bearer" input_list output =
      approvalLoopCreate input_list output := by
  refine ⟨(approvalLoopExistingGen_eq_createGen _ _ _).symm, ?_, ?_⟩
  · rw [approvalLoopExisting_eq_gen, approvalLoopExistingGen_eq_createGen]
  · rw [approvalLoopCreate_eq_gen, approvalLoopExistingGen_eq_createGen]

/-- Claim C10: the type check strictly guards the field accesses: the scan
never inspects the server label or identifier of an item whose type is not
mcp_approval_request, so its result is unchanged when those fields are
replaced arbitrarily (including by none, modelling variants lacking the
fields) on every such item, and the scan is total, so such items can never
make it fail. -/
theorem c10_guard_protects_fields (expected_tool_label : String)
    (out1 out2 : List OutputItem)
    (h : List.Forall₂ (fun a b => a.type = b.type ∧
      (a.type = "mcp_approval_request" →
        a.server_label = b.server_label ∧ a.id = b.id)) out1 out2) :
    approvalLoopCreateGen expected_tool_label [] out1 =
      approvalLoopCreateGen expected_tool_label [] out2 ∧
    approvalLoopCreate [] out1 = approvalLoopCreate [] out2 ∧
    approvalLoopExisting [] out1 = approvalLoopExisting [] out2 := by
  refine ⟨?_, ?_, ?_⟩
  · rw [approvalLoopCreateGen_eq_spec, approvalLoopCreateGen_eq_spec,
      collectApprovalsSpec_congr expected_tool_label h]
  · rw [approvalLoopCreate_eq_spec, approvalLoopCreate_eq_spec,
      collectApprovalsSpec_congr "custom-mcp-bearer" h]
  · rw [approvalLoopExisting_eq_spec, approvalLoopExisting_eq_spec,
      collectApprovalsSpec_congr "microsoft-learn-mcp" h]

/-- Two single-item outputs whose item is not an approval request and whose
irrelevant fields differ arbitrarily. -/
def outMessageA : List OutputItem :=
  [{ type := "message", server_label := some "unrelated", id := some "x" }]

/-- The same non-approval item with both fields absent. -/
def outMessageB : List OutputItem :=
  [{ type := "message", server_label := none, id := none }]

theorem c10_witness :
    approvalLoopCreateGen "custom-mcp-bearer" [] outMessageA =
      approvalLoopCreateGen "custom-mcp-bearer" [] outMessageB ∧
    approvalLoopCreate [] outMessageA = approvalLoopCreate [] outMessageB ∧
    approvalLoopExisting [] outMessageA = approvalLoopExisting [] outMessageB :=
  c10_guard_protects_fields "custom-mcp-bearer" outMessageA outMessageB
    (List.Forall₂.cons ⟨rfl, fun hcontra => absurd hcontra (by decide)⟩
      List.Forall₂.nil)

theorem runCreate_success_shape (env : String → Option String)
    (C : Collaborators) (ep tok model : String) (agent : Agent)
    (conv : Conversation) (resp : Response)
    (h1 : env "AZURE_AI_PROJECT_ENDPOINT" = some ep)
    (h2 : env "CUSTOM_MCP_BEARER_TOKEN" = some tok)
    (h3 : env "AZURE_AI_MODEL_DEPLOYMENT_NAME" = some model)
    (h4 : C.credential = .ok ())
    (h5 : C.projectClient ep = .ok ())
    (h6 : C.openaiClient = .ok ())
    (h7 : C.createVersion "FoundryNew-MCP-CustomAgent"
        (createAgentDefinition model tok) = .ok agent)
    (h8 : C.conversationsCreate = .ok conv)
    (h9 : C.responsesCreate (some conv.id) (.text "multiply 10 and 20") none
        agent.name = .ok resp) :
    runCreate env C =
      ((match C.responsesCreate none
          (.items (approvalLoopCreate [] resp.output)) (some resp.id)
          agent.name with
        | .error e => .error e
        | .ok response2 => .ok response2.output_text),
       [Event.envRead "AZURE_AI_PROJECT_ENDPOINT",
        Event.call .defaultAzureCredential,
        Event.call (.aiProjectClient ep),
        Event.call .getOpenAIClient,
        Event.envRead "CUSTOM_MCP_BEARER_TOKEN",
        Event.envRead "AZURE_AI_MODEL_DEPLOYMENT_NAME",
        Event.call (.createVersion "FoundryNew-MCP-CustomAgent"
          (createAgentDefinition model tok)),
        Event.call .conversationsCreate,
        Event.call (.responsesCreate (some conv.id)
          (.text "multiply 10 and 20") none agent.name),
        Event.call (.responsesCreate none
          (.items (approvalLoopCreate [] resp.output)) (some resp.id)
          agent.name)]) := by
  simp only [runCreate, resubmit, h1, h2, h3, h4, h5, h6, h7, h8, h9]
  rfl

theorem runExisting_success_shape (env : String → Option String)
    (C : Collaborators) (ep agent_name : String) (agent : Agent)
    (conv : Conversation) (resp : Response)
    (h1 : env "AZURE_AI_PROJECT_ENDPOINT" = some ep)
    (h2 : env "AZURE_AI_AGENT_NAME" = some agent_name)
    (h4 : C.credential = .ok ())
    (h5 : C.projectClient ep = .ok ())
    (h6 : C.openaiClient = .ok ())
    (h7 : C.getAgent agent_name = .ok agent)
    (h8 : C.conversationsCreate = .ok conv)
    (h9 : C.responsesCreate (some conv.id)
        (.text "Please summarize latest features of Azure Cosmos DB from Microsoft Learn.")
        none agent.name = .ok resp) :
    runExisting env C =
      ((match C.responsesCreate none
          (.items (approvalLoopExisting [] resp.output)) (some resp.id)
          agent.name with
        | .error e => .error e
        | .ok response2 => .ok response2.output_text),
       [Event.envRead "AZURE_AI_PROJECT_ENDPOINT",
        Event.envRead "AZURE_AI_AGENT_NAME",
        Event.call .defaultAzureCredential,
        Event.call (.aiProjectClient ep),
        Event.call .getOpenAIClient,
        Event.call (.getAgent agent_name),
        Event.call .conversationsCreate,
        Event.call (.responsesCreate (some conv.id)
          (.text "Please summarize latest features of Azure Cosmos DB from Microsoft Learn.")
          none agent.name),
        Event.call (.responsesCreate none
          (.items (approvalLoopExisting [] resp.output)) (some resp.id)
          agent.name)]) := by
  simp only [runExisting, resubmit, h1, h2, h4, h5, h6, h7, h8, h9]
  rfl

/-- Recognizer for the conversation-creation call in a trace, used to count
how many conversations a session opens. -/
def isConversationsCreate : Event → Bool
  | .call .conversationsCreate => true
  | _ => false

/-- Claim C3: every approval submitted back to the service answers an
approval request of the immediately preceding response. Whenever the first
prompt round of a run succeeds with response resp, the whole trace is the
one shown, whose only approvals-carrying call is the single resubmission
with payload exactly the scan of the resp output; and every approval of
that payload names the identifier of an item of the resp output whose type
is mcp_approval_request and whose server label is the expected label of
that script, with approve set to true. No approval is fabricated or aimed
at an unrelated request. -/
theorem c3_no_fabricated_approvals :
    (∀ (env : String → Option String) (C : Collaborators)
      (ep tok model : String) (agent : Agent) (conv : Conversation)
      (resp : Response),
      env "AZURE_AI_PROJECT_ENDPOINT" = some ep →
      env "CUSTOM_MCP_BEARER_TOKEN" = some tok →
      env "AZURE_AI_MODEL_DEPLOYMENT_NAME" = some model →
      C.credential = .ok () →
      C.projectClient ep = .ok () →
      C.openaiClient = .ok () →
      C.createVersion "FoundryNew-MCP-CustomAgent"
        (createAgentDefinition model tok) = .ok agent →
      C.conversationsCreate = .ok conv →
      C.responsesCreate (some conv.id) (.text "multiply 10 and 20") none
        agent.name = .ok resp →
      ((runCreate env C).2 =
        [Event.envRead "AZURE_AI_PROJECT_ENDPOINT",
         Event.call .defaultAzureCredential,
         Event.call (.aiProjectClient ep),
         Event.call .getOpenAIClient,
         Event.envRead "CUSTOM_MCP_BEARER_TOKEN",
         Event.envRead "AZURE_AI_MODEL_DEPLOYMENT_NAME",
         Event.call (.createVersion "FoundryNew-MCP-CustomAgent"
           (createAgentDefinition model tok)),
         Event.call .conversationsCreate,
         Event.call (.responsesCreate (some conv.id)
           (.text "multiply 10 and 20") none agent.name),
         Event.call (.responsesCreate none
           (.items (approvalLoopCreate [] resp.output)) (some resp.id)
           agent.name)] ∧
       ∀ a ∈ approvalLoopCreate [] resp.output,
         ∃ item ∈ resp.output, item.type = "mcp_approval_request" ∧
           item.server_label = some "custom-mcp-bearer" ∧
           item.id = some a.approval_request_id ∧ a.approve = true)) ∧
    (∀ (env : String → Option String) (C : Collaborators)
      (ep agent_name : String) (agent : Agent) (conv : Conversation)
      (resp : Response),
      env "AZURE_AI_PROJECT_ENDPOINT" = some ep →
      env "AZURE_AI_AGENT_NAME" = some agent_name →
      C.credential = .ok () →
      C.projectClient ep = .ok () →
      C.openaiClient = .ok () →
      C.getAgent agent_name = .ok agent →
      C.conversationsCreate = .ok conv →
      C.responsesCreate (some conv.id)
        (.text "Please summarize latest features of Azure Cosmos DB from Microsoft Learn.")
        none agent.name = .ok resp →
      ((runExisting env C).2 =
        [Event.envRead "AZURE_AI_PROJECT_ENDPOINT",
         Event.envRead "AZURE_AI_AGENT_NAME",
         Event.call .defaultAzureCredential,
         Event.call (.aiProjectClient ep),
         Event.call .getOpenAIClient,
         Event.call (.getAgent agent_name),
         Event.call .conversationsCreate,
         Event.call (.responsesCreate (some conv.id)
           (.text "Please summarize latest features of Azure Cosmos DB from Microsoft Learn.")
           none agent.name),
         Event.call (.responsesCreate none
           (.items (approvalLoopExisting [] resp.output)) (some resp.id)
           agent.name)] ∧
       ∀ a ∈ approvalLoopExisting [] resp.output,
         ∃ item ∈ resp.output, item.type = "mcp_approval_request" ∧
           item.server_label = some "microsoft-learn-mcp" ∧
           item.id = some a.approval_request_id ∧ a.approve = true)) := by
  constructor
  · intro env C ep tok model agent conv resp h1 h2 h3 h4 h5 h6 h7 h8 h9
    constructor
    · exact congrArg Prod.snd
        (runCreate_success_shape env C ep tok model agent conv resp
          h1 h2 h3 h4 h5 h6 h7 h8 h9)
    · intro a ha
      rw [approvalLoopCreate_eq_spec, List.nil_append] at ha
      exact mem_collectApprovalsSpec _ _ _ ha
  · intro env C ep agent_name agent conv resp h1 h2 h4 h5 h6 h7 h8 h9
    constructor
    · exact congrArg Prod.snd
        (runExisting_success_shape env C ep agent_name agent conv resp
          h1 h2 h4 h5 h6 h7 h8 h9)
    · intro a ha
      rw [approvalLoopExisting_eq_spec, List.nil_append] at ha
      exact mem_collectApprovalsSpec _ _ _ ha

theorem c3_witness :
    (runCreate envAll CallOK).2 =
      [Event.envRead "AZURE_AI_PROJECT_ENDPOINT",
       Event.call .defaultAzureCredential,
       Event.call (.aiProjectClient "https://example-endpoint"),
       Event.call .getOpenAIClient,
       Event.envRead "CUSTOM_MCP_BEARER_TOKEN",
       Event.envRead "AZURE_AI_MODEL_DEPLOYMENT_NAME",
       Event.call (.createVersion "FoundryNew-MCP-CustomAgent"
         (createAgentDefinition "model-1" "token-1")),
       Event.call .conversationsCreate,
       Event.call (.responsesCreate (some convA.id)
         (.text "multiply 10 and 20") none agentA.name),
       Event.call (.responsesCreate none
         (.items (approvalLoopCreate [] respApproval.output))
         (some respApproval.id) agentA.name)] ∧
    ∀ a ∈ approvalLoopCreate [] respApproval.output,
      ∃ item ∈ respApproval.output, item.type = "mcp_approval_request" ∧
        item.server_label = some "custom-mcp-bearer" ∧
        item.id = some a.approval_request_id ∧ a.approve = true :=
  c3_no_fabricated_approvals.1 envAll CallOK "https://example-endpoint"
    "token-1" "model-1" agentA convA respApproval
    rfl rfl rfl rfl rfl rfl rfl rfl rfl

/-- Claim C4: the resubmission step issues exactly one downstream
prompt-submission call for every approvals list, including the empty one;
there is no branch skipping the call when no approvals were collected, and
within any run whose first prompt round succeeds the resubmission call with
the (possibly empty) scanned payload is issued. -/
theorem c4_resubmit_exactly_one_call :
    (∀ (C : Collaborators) (input_list : List McpApprovalResponse)
        (previous_response_id agent_name : String),
      (resubmit C input_list previous_response_id agent_name).2 =
        [Event.call (.responsesCreate none (.items input_list)
          (some previous_response_id) agent_name)] ∧
      (resubmit C input_list previous_response_id agent_name).2.length = 1) ∧
    (∀ (env : String → Option String) (C : Collaborators)
      (ep tok model : String) (agent : Agent) (conv : Conversation)
      (resp : Response),
      env "AZURE_AI_PROJECT_ENDPOINT" = some ep →
      env "CUSTOM_MCP_BEARER_TOKEN" = some tok →
      env "AZURE_AI_MODEL_DEPLOYMENT_NAME" = some model →
      C.credential = .ok () →
      C.projectClient ep = .ok () →
      C.openaiClient = .ok () →
      C.createVersion "FoundryNew-MCP-CustomAgent"
        (createAgentDefinition model tok) = .ok agent →
      C.conversationsCreate = .ok conv →
      C.responsesCreate (some conv.id) (.text "multiply 10 and 20") none
        agent.name = .ok resp →
      Event.call (.responsesCreate none
        (.items (approvalLoopCreate [] resp.output)) (some resp.id)
        agent.name) ∈ (runCreate env C).2) := by
  constructor
  · intro C input_list previous_response_id agent_name
    exact ⟨rfl, rfl⟩
  · intro env C ep tok model agent conv resp h1 h2 h3 h4 h5 h6 h7 h8 h9
    rw [congrArg Prod.snd
      (runCreate_success_shape env C ep tok model agent conv resp
        h1 h2 h3 h4 h5 h6 h7 h8 h9)]
    simp

theorem c4_witness :
    approvalLoopCreate [] respPlain.output = [] ∧
    Event.call (.responsesCreate none
      (.items (approvalLoopCreate [] respPlain.output))
      (some respPlain.id) agentA.name) ∈ (runCreate envAll CallPlain).2 :=
  ⟨rfl,
   c4_resubmit_exactly_one_call.2 envAll CallPlain "https://example-endpoint"
     "token-1" "model-1" agentA convA respPlain
     rfl rfl rfl rfl rfl rfl rfl rfl rfl⟩

/-- Counterexample to claim C7 as stated: in a fully successful run of the
creation script, the conversation identifier conv-1 is attached to the
initial prompt submission only; the approval resubmission passes no
conversation identifier at all (its conversation argument is none) and
chains the round through previous_response_id instead, so it is false that
both rounds carry the same conversation identifier. -/
theorem c7_counterexample :
    (runCreate envAll CallOK).2 =
      [Event.envRead "AZURE_AI_PROJECT_ENDPOINT",
       Event.call .defaultAzureCredential,
       Event.call (.aiProjectClient "https://example-endpoint"),
       Event.call .getOpenAIClient,
       Event.envRead "CUSTOM_MCP_BEARER_TOKEN",
       Event.envRead "AZURE_AI_MODEL_DEPLOYMENT_NAME",
       Event.call (.createVersion "FoundryNew-MCP-CustomAgent"
         (createAgentDefinition "model-1" "token-1")),
       Event.call .conversationsCreate,
       Event.call (.responsesCreate (some "conv-1")
         (.text "multiply 10 and 20") none "agent-A"),
       Event.call (.responsesCreate none
         (.items [{ type := "mcp_approval_response", approve := true,
                    approval_request_id := "req-1" }])
         (some "resp-1") "agent-A")] ∧
    Event.call (.responsesCreate (some "conv-1")
      (.items [{ type := "mcp_approval_response", approve := true,
                 approval_request_id := "req-1" }])
      (some "resp-1") "agent-A") ∉ (runCreate envAll CallOK).2 := by
  constructor
  · rfl
  · decide

/-- Claim C7 amended: the conversation is created exactly once per session
and its identifier is attached to the initial prompt submission only, while
the approval resubmission carries no conversation identifier and references
the prior response through previous_response_id. -/
theorem c7_conversation_created_once :
    (∀ (env : String → Option String) (C : Collaborators)
      (ep tok model : String) (agent : Agent) (conv : Conversation)
      (resp : Response),
      env "AZURE_AI_PROJECT_ENDPOINT" = some ep →
      env "CUSTOM_MCP_BEARER_TOKEN" = some tok →
      env "AZURE_AI_MODEL_DEPLOYMENT_NAME" = some model →
      C.credential = .ok () →
      C.projectClient ep = .ok () →
      C.openaiClient = .ok () →
      C.createVersion "FoundryNew-MCP-CustomAgent"
        (createAgentDefinition model tok) = .ok agent →
      C.conversationsCreate = .ok conv →
      C.responsesCreate (some conv.id) (.text "multiply 10 and 20") none
        agent.name = .ok resp →
      ((runCreate env C).2.countP isConversationsCreate = 1 ∧
       Event.call (.responsesCreate (some conv.id)
         (.text "multiply 10 and 20") none agent.name) ∈ (runCreate env C).2 ∧
       Event.call (.responsesCreate none
         (.items (approvalLoopCreate [] resp.output)) (some resp.id)
         agent.name) ∈ (runCreate env C).2)) ∧
    (∀ (env : String → Option String) (C : Collaborators)
      (ep agent_name : String) (agent : Agent) (conv : Conversation)
      (resp : Response),
      env "AZURE_AI_PROJECT_ENDPOINT" = some ep →
      env "AZURE_AI_AGENT_NAME" = some agent_name →
      C.credential = .ok () →
      C.projectClient ep = .ok () →
      C.openaiClient = .ok () →
      C.getAgent agent_name = .ok agent →
      C.conversationsCreate = .ok conv →
      C.responsesCreate (some conv.id)
        (.text "Please summarize latest features of Azure Cosmos DB from Microsoft Learn.")
        none agent.name = .ok resp →
      ((runExisting env C).2.countP isConversationsCreate = 1 ∧
       Event.call (.responsesCreate (some conv.id)
         (.text "Please summarize latest features of Azure Cosmos DB from Microsoft Learn.")
         none agent.name) ∈ (runExisting env C).2 ∧
       Event.call (.responsesCreate none
         (.items (approvalLoopExisting [] resp.output)) (some resp.id)
         agent.name) ∈ (runExisting env C).2)) := by
  constructor
  · intro env C ep tok model agent conv resp h1 h2 h3 h4 h5 h6 h7 h8 h9
    rw [congrArg Prod.snd
      (runCreate_success_shape env C ep tok model agent conv resp
        h1 h2 h3 h4 h5 h6 h7 h8 h9)]
    refine ⟨?_, by simp, by simp⟩
    simp [List.countP_cons, isConversationsCreate]
  · intro env C ep agent_name agent conv resp h1 h2 h4 h5 h6 h7 h8 h9
    rw [congrArg Prod.snd
      (runExisting_success_shape env C ep agent_name agent conv resp
        h1 h2 h4 h5 h6 h7 h8 h9)]
    refine ⟨?_, by simp, by simp⟩
    simp [List.countP_cons, isConversationsCreate]

theorem c7_witness :
    (runCreate envAll CallOK).2.countP isConversationsCreate = 1 ∧
    Event.call (.responsesCreate (some convA.id)
      (.text "multiply 10 and 20") none agentA.name) ∈
      (runCreate envAll CallOK).2 ∧
    Event.call (.responsesCreate none
      (.items (approvalLoopCreate [] respApproval.output))
      (some respApproval.id) agentA.name) ∈ (runCreate envAll CallOK).2 :=
  c7_conversation_created_once.1 envAll CallOK "https://example-endpoint"
    "token-1" "model-1" agentA convA respApproval
    rfl rfl rfl rfl rfl rfl rfl rfl rfl

/-- Counterexample to claim C6 as stated: the programs do not read the keys
PROJECT_ENDPOINT, MODEL_DEPLOYMENT_NAME, MCP_BEARER_TOKEN or AGENT_NAME. An
environment holding exactly those four keys makes both scripts fail at once
with a KeyError for AZURE_AI_PROJECT_ENDPOINT, the key actually read; and
when only CUSTOM_MCP_BEARER_TOKEN is absent the creation script does fail
with its KeyError, but only after credential acquisition and client
construction were already issued, refuting failure before any remote call. -/
theorem c6_counterexample :
    runCreate envClaimedKeys CallOK =
      (.error (.keyError "AZURE_AI_PROJECT_ENDPOINT"),
       [Event.envRead "AZURE_AI_PROJECT_ENDPOINT"]) ∧
    runExisting envClaimedKeys CallOK =
      (.error (.keyError "AZURE_AI_PROJECT_ENDPOINT"),
       [Event.envRead "AZURE_AI_PROJECT_ENDPOINT"]) ∧
    (runCreate (envDrop "CUSTOM_MCP_BEARER_TOKEN") CallOK).1 =
      .error (.keyError "CUSTOM_MCP_BEARER_TOKEN") ∧
    Event.call .defaultAzureCredential ∈
      (runCreate (envDrop "CUSTOM_MCP_BEARER_TOKEN") CallOK).2 ∧
    Event.call (.aiProjectClient "https://example-endpoint") ∈
      (runCreate (envDrop "CUSTOM_MCP_BEARER_TOKEN") CallOK).2 := by
  refine ⟨rfl, rfl, rfl, by decide, by decide⟩

/-- Claim C6 amended: the creation script reads exactly the keys
AZURE_AI_PROJECT_ENDPOINT, CUSTOM_MCP_BEARER_TOKEN and
AZURE_AI_MODEL_DEPLOYMENT_NAME, the retrieval script exactly
AZURE_AI_PROJECT_ENDPOINT and AZURE_AI_AGENT_NAME, in those orders. A
missing AZURE_AI_PROJECT_ENDPOINT or AZURE_AI_AGENT_NAME aborts the run
before any remote interaction at all, while a missing
CUSTOM_MCP_BEARER_TOKEN or AZURE_AI_MODEL_DEPLOYMENT_NAME aborts it before
any agent, conversation or prompt call but only after credential
acquisition and client construction. -/
theorem c6_config_keys_amended :
    (∀ (env : String → Option String) (C : Collaborators)
      (ep tok model : String) (agent : Agent) (conv : Conversation)
      (resp : Response),
      env "AZURE_AI_PROJECT_ENDPOINT" = some ep →
      env "CUSTOM_MCP_BEARER_TOKEN" = some tok →
      env "AZURE_AI_MODEL_DEPLOYMENT_NAME" = some model →
      C.credential = .ok () →
      C.projectClient ep = .ok () →
      C.openaiClient = .ok () →
      C.createVersion "FoundryNew-MCP-CustomAgent"
        (createAgentDefinition model tok) = .ok agent →
      C.conversationsCreate = .ok conv →
      C.responsesCreate (some conv.id) (.text "multiply 10 and 20") none
        agent.name = .ok resp →
      envReadsOf (runCreate env C).2 =
        ["AZURE_AI_PROJECT_ENDPOINT", "CUSTOM_MCP_BEARER_TOKEN",
         "AZURE_AI_MODEL_DEPLOYMENT_NAME"]) ∧
    (∀ (env : String → Option String) (C : Collaborators)
      (ep agent_name : String) (agent : Agent) (conv : Conversation)
      (resp : Response),
      env "AZURE_AI_PROJECT_ENDPOINT" = some ep →
      env "AZURE_AI_AGENT_NAME" = some agent_name →
      C.credential = .ok () →
      C.projectClient ep = .ok () →
      C.openaiClient = .ok () →
      C.getAgent agent_name = .ok agent →
      C.conversationsCreate = .ok conv →
      C.responsesCreate (some conv.id)
        (.text "Please summarize latest features of Azure Cosmos DB from Microsoft Learn.")
        none agent.name = .ok resp →
      envReadsOf (runExisting env C).2 =
        ["AZURE_AI_PROJECT_ENDPOINT", "AZURE_AI_AGENT_NAME"]) ∧
    (∀ (env : String → Option String) (C : Collaborators),
      env "AZURE_AI_PROJECT_ENDPOINT" = none →
      runCreate env C =
        (.error (.keyError "AZURE_AI_PROJECT_ENDPOINT"),
         [Event.envRead "AZURE_AI_PROJECT_ENDPOINT"])) ∧
    (∀ (env : String → Option String) (C : Collaborators),
      env "AZURE_AI_PROJECT_ENDPOINT" = none →
      runExisting env C =
        (.error (.keyError "AZURE_AI_PROJECT_ENDPOINT"),
         [Event.envRead "AZURE_AI_PROJECT_ENDPOINT"])) ∧
    (∀ (env : String → Option String) (C : Collaborators) (ep : String),
      env "AZURE_AI_PROJECT_ENDPOINT" = some ep →
      env "AZURE_AI_AGENT_NAME" = none →
      runExisting env C =
        (.error (.keyError "AZURE_AI_AGENT_NAME"),
         [Event.envRead "AZURE_AI_PROJECT_ENDPOINT",
          Event.envRead "AZURE_AI_AGENT_NAME"])) ∧
    (∀ (env : String → Option String) (C : Collaborators) (ep : String),
      env "AZURE_AI_PROJECT_ENDPOINT" = some ep →
      env "CUSTOM_MCP_BEARER_TOKEN" = none →
      C.credential = .ok () →
      C.projectClient ep = .ok () →
      C.openaiClient = .ok () →
      runCreate env C =
        (.error (.keyError "CUSTOM_MCP_BEARER_TOKEN"),
         [Event.envRead "AZURE_AI_PROJECT_ENDPOINT",
          Event.call .defaultAzureCredential,
          Event.call (.aiProjectClient ep),
          Event.call .getOpenAIClient,
          Event.envRead "CUSTOM_MCP_BEARER_TOKEN"])) ∧
    (∀ (env : String → Option String) (C : Collaborators) (ep tok : String),
      env "AZURE_AI_PROJECT_ENDPOINT" = some ep →
      env "CUSTOM_MCP_BEARER_TOKEN" = some tok →
      env "AZURE_AI_MODEL_DEPLOYMENT_NAME" = none →
      C.credential = .ok () →
      C.projectClient ep = .ok () →
      C.openaiClient = .ok () →
      runCreate env C =
        (.error (.keyError "AZURE_AI_MODEL_DEPLOYMENT_NAME"),
         [Event.envRead "AZURE_AI_PROJECT_ENDPOINT",
          Event.call .defaultAzureCredential,
          Event.call (.aiProjectClient ep),
          Event.call .getOpenAIClient,
          Event.envRead "CUSTOM_MCP_BEARER_TOKEN",
          Event.envRead "AZURE_AI_MODEL_DEPLOYMENT_NAME"])) := by
  refine ⟨?_, ?_, ?_, ?_, ?_, ?_, ?_⟩
  · intro env C ep tok model agent conv resp h1 h2 h3 h4 h5 h6 h7 h8 h9
    rw [congrArg Prod.snd
      (runCreate_success_shape env C ep tok model agent conv resp
        h1 h2 h3 h4 h5 h6 h7 h8 h9)]
    rfl
  · intro env C ep agent_name agent conv resp h1 h2 h4 h5 h6 h7 h8 h9
    rw [congrArg Prod.snd
      (runExisting_success_shape env C ep agent_name agent conv resp
        h1 h2 h4 h5 h6 h7 h8 h9)]
    rfl
  · intro env C h1
    simp only [runCreate, h1]
  · intro env C h1
    simp only [runExisting, h1]
  · intro env C ep h1 h2
    simp only [runExisting, h1, h2]
  · intro env C ep h1 h2 h4 h5 h6
    simp only [runCreate, h1, h2, h4, h5, h6]
  · intro env C ep tok h1 h2 h3 h4 h5 h6
    simp only [runCreate, h1, h2, h3, h4, h5, h6]

theorem c6_witness :
    envReadsOf (runCreate envAll CallOK).2 =
      ["AZURE_AI_PROJECT_ENDPOINT", "CUSTOM_MCP_BEARER_TOKEN",
       "AZURE_AI_MODEL_DEPLOYMENT_NAME"] ∧
    envReadsOf (runExisting envAll CallOK).2 =
      ["AZURE_AI_PROJECT_ENDPOINT", "AZURE_AI_AGENT_NAME"] ∧
    runCreate (envDrop "CUSTOM_MCP_BEARER_TOKEN") CallOK =
      (.error (.keyError "CUSTOM_MCP_BEARER_TOKEN"),
       [Event.envRead "AZURE_AI_PROJECT_ENDPOINT",
        Event.call .defaultAzureCredential,
        Event.call (.aiProjectClient "https://example-endpoint"),
        Event.call .getOpenAIClient,
        Event.envRead "CUSTOM_MCP_BEARER_TOKEN"]) :=
  ⟨c6_config_keys_amended.1 envAll CallOK "https://example-endpoint"
     "token-1" "model-1" agentA convA respApproval
     rfl rfl rfl rfl rfl rfl rfl rfl rfl,
   c6_config_keys_amended.2.1 envAll CallOK "https://example-endpoint"
     "existing-agent" agentA convA respApproval
     rfl rfl rfl rfl rfl rfl rfl rfl,
   c6_config_keys_amended.2.2.2.2.2.1 (envDrop "CUSTOM_MCP_BEARER_TOKEN")
     CallOK "https://example-endpoint" rfl rfl rfl rfl rfl⟩

/-- Claim C8: every failure raised by a downstream collaborator (identity,
agent create or lookup, conversation create, or either prompt submission)
propagates to the process boundary unmodified: the run result is exactly
that error, nothing is caught or retried, and the trace ends at the failing
call, so the session performs no further remote calls after the first
failure. One conjunct per failure point and script. -/
theorem c8_failure_propagation :
    (∀ (env : String → Option String) (C : Collaborators) (ep : String)
      (e : Err),
      env "AZURE_AI_PROJECT_ENDPOINT" = some ep →
      C.credential = .error e →
      runCreate env C =
        (.error e,
         [Event.envRead "AZURE_AI_PROJECT_ENDPOINT",
          Event.call .defaultAzureCredential])) ∧
    (∀ (env : String → Option String) (C : Collaborators)
      (ep tok model : String) (e : Err),
      env "AZURE_AI_PROJECT_ENDPOINT" = some ep →
      env "CUSTOM_MCP_BEARER_TOKEN" = some tok →
      env "AZURE_AI_MODEL_DEPLOYMENT_NAME" = some model →
      C.credential = .ok () →
      C.projectClient ep = .ok () →
      C.openaiClient = .ok () →
      C.createVersion "FoundryNew-MCP-CustomAgent"
        (createAgentDefinition model tok) = .error e →
      runCreate env C =
        (.error e,
         [Event.envRead "AZURE_AI_PROJECT_ENDPOINT",
          Event.call .defaultAzureCredential,
          Event.call (.aiProjectClient ep),
          Event.call .getOpenAIClient,
          Event.envRead "CUSTOM_MCP_BEARER_TOKEN",
          Event.envRead "AZURE_AI_MODEL_DEPLOYMENT_NAME",
          Event.call (.createVersion "FoundryNew-MCP-CustomAgent"
            (createAgentDefinition model tok))])) ∧
    (∀ (env : String → Option String) (C : Collaborators)
      (ep tok model : String) (agent : Agent) (e : Err),
      env "AZURE_AI_PROJECT_ENDPOINT" = some ep →
      env "CUSTOM_MCP_BEARER_TOKEN" = some tok →
      env "AZURE_AI_MODEL_DEPLOYMENT_NAME" = some model →
      C.credential = .ok () →
      C.projectClient ep = .ok () →
      C.openaiClient = .ok () →
      C.createVersion "FoundryNew-MCP-CustomAgent"
        (createAgentDefinition model tok) = .ok agent →
      C.conversationsCreate = .error e →
      runCreate env C =
        (.error e,
         [Event.envRead "AZURE_AI_PROJECT_ENDPOINT",
          Event.call .defaultAzureCredential,
          Event.call (.aiProjectClient ep),
          Event.call .getOpenAIClient,
          Event.envRead "CUSTOM_MCP_BEARER_TOKEN",
          Event.envRead "AZURE_AI_MODEL_DEPLOYMENT_NAME",
          Event.call (.createVersion "FoundryNew-MCP-CustomAgent"
            (createAgentDefinition model tok)),
          Event.call .conversationsCreate])) ∧
    (∀ (env : String → Option String) (C : Collaborators)
      (ep tok model : String) (agent : Agent) (conv : Conversation)
      (e : Err),
      env "AZURE_AI_PROJECT_ENDPOINT" = some ep →
      env "CUSTOM_MCP_BEARER_TOKEN" = some tok →
      env "AZURE_AI_MODEL_DEPLOYMENT_NAME" = some model →
      C.credential = .ok () →
      C.projectClient ep = .ok () →
      C.openaiClient = .ok () →
      C.createVersion "FoundryNew-MCP-CustomAgent"
        (createAgentDefinition model tok) = .ok agent →
      C.conversationsCreate = .ok conv →
      C.responsesCreate (some conv.id) (.text "multiply 10 and 20") none
        agent.name = .error e →
      runCreate env C =
        (.error e,
         [Event.envRead "AZURE_AI_PROJECT_ENDPOINT",
          Event.call .defaultAzureCredential,
          Event.call (.aiProjectClient ep),
          Event.call .getOpenAIClient,
          Event.envRead "CUSTOM_MCP_BEARER_TOKEN",
          Event.envRead "AZURE_AI_MODEL_DEPLOYMENT_NAME",
          Event.call (.createVersion "FoundryNew-MCP-CustomAgent"
            (createAgentDefinition model tok)),
          Event.call .conversationsCreate,
          Event.call (.responsesCreate (some conv.id)
            (.text "multiply 10 and 20") none agent.name)])) ∧
    (∀ (env : String → Option String) (C : Collaborators)
      (ep tok model : String) (agent : Agent) (conv : Conversation)
      (resp : Response) (e : Err),
      env "AZURE_AI_PROJECT_ENDPOINT" = some ep →
      env "CUSTOM_MCP_BEARER_TOKEN" = some tok →
      env "AZURE_AI_MODEL_DEPLOYMENT_NAME" = some model →
      C.credential = .ok () →
      C.projectClient ep = .ok () →
      C.openaiClient = .ok () →
      C.createVersion "FoundryNew-MCP-CustomAgent"
        (createAgentDefinition model tok) = .ok agent →
      C.conversationsCreate = .ok conv →
      C.responsesCreate (some conv.id) (.text "multiply 10 and 20") none
        agent.name = .ok resp →
      C.responsesCreate none (.items (approvalLoopCreate [] resp.output))
        (some resp.id) agent.name = .error e →
      runCreate env C =
        (.error e,
         [Event.envRead "AZURE_AI_PROJECT_ENDPOINT",
          Event.call .defaultAzureCredential,
          Event.call (.aiProjectClient ep),
          Event.call .getOpenAIClient,
          Event.envRead "CUSTOM_MCP_BEARER_TOKEN",
          Event.envRead "AZURE_AI_MODEL_DEPLOYMENT_NAME",
          Event.call (.createVersion "FoundryNew-MCP-CustomAgent"
            (createAgentDefinition model tok)),
          Event.call .conversationsCreate,
          Event.call (.responsesCreate (some conv.id)
            (.text "multiply 10 and 20") none agent.name),
          Event.call (.responsesCreate none
            (.items (approvalLoopCreate [] resp.output)) (some resp.id)
            agent.name)])) ∧
    (∀ (env : String → Option String) (C : Collaborators)
      (ep agent_name : String) (e : Err),
      env "AZURE_AI_PROJECT_ENDPOINT" = some ep →
      env "AZURE_AI_AGENT_NAME" = some agent_name →
      C.credential = .error e →
      runExisting env C =
        (.error e,
         [Event.envRead "AZURE_AI_PROJECT_ENDPOINT",
          Event.envRead "AZURE_AI_AGENT_NAME",
          Event.call .defaultAzureCredential])) ∧
    (∀ (env : String → Option String) (C : Collaborators)
      (ep agent_name : String) (e : Err),
      env "AZURE_AI_PROJECT_ENDPOINT" = some ep →
      env "AZURE_AI_AGENT_NAME" = some agent_name →
      C.credential = .ok () →
      C.projectClient ep = .ok () →
      C.openaiClient = .ok () →
      C.getAgent agent_name = .error e →
      runExisting env C =
        (.error e,
         [Event.envRead "AZURE_AI_PROJECT_ENDPOINT",
          Event.envRead "AZURE_AI_AGENT_NAME",
          Event.call .defaultAzureCredential,
          Event.call (.aiProjectClient ep),
          Event.call .getOpenAIClient,
          Event.call (.getAgent agent_name)])) ∧
    (∀ (env : String → Option String) (C : Collaborators)
      (ep agent_name : String) (agent : Agent) (e : Err),
      env "AZURE_AI_PROJECT_ENDPOINT" = some ep →
      env "AZURE_AI_AGENT_NAME" = some agent_name →
      C.credential = .ok () →
      C.projectClient ep = .ok () →
      C.openaiClient = .ok () →
      C.getAgent agent_name = .ok agent →
      C.conversationsCreate = .error e →
      runExisting env C =
        (.error e,
         [Event.envRead "AZURE_AI_PROJECT_ENDPOINT",
          Event.envRead "AZURE_AI_AGENT_NAME",
          Event.call .defaultAzureCredential,
          Event.call (.aiProjectClient ep),
          Event.call .getOpenAIClient,
          Event.call (.getAgent agent_name),
          Event.call .conversationsCreate])) ∧
    (∀ (env : String → Option String) (C : Collaborators)
      (ep agent_name : String) (agent : Agent) (conv : Conversation)
      (e : Err),
      env "AZURE_AI_PROJECT_ENDPOINT" = some ep →
      env "AZURE_AI_AGENT_NAME" = some agent_name →
      C.credential = .ok () →
      C.projectClient ep = .ok () →
      C.openaiClient = .ok () →
      C.getAgent agent_name = .ok agent →
      C.conversationsCreate = .ok conv →
      C.responsesCreate (some conv.id)
        (.text "Please summarize latest features of Azure Cosmos DB from Microsoft Learn.")
        none agent.name = .error e →
      runExisting env C =
        (.error e,
         [Event.envRead "AZURE_AI_PROJECT_ENDPOINT",
          Event.envRead "AZURE_AI_AGENT_NAME",
          Event.call .defaultAzureCredential,
          Event.call (.aiProjectClient ep),
          Event.call .getOpenAIClient,
          Event.call (.getAgent agent_name),
          Event.call .conversationsCreate,
          Event.call (.responsesCreate (some conv.id)
            (.text "Please summarize latest features of Azure Cosmos DB from Microsoft Learn.")
            none agent.name)])) ∧
    (∀ (env : String → Option String) (C : Collaborators)
      (ep agent_name : String) (agent : Agent) (conv : Conversation)
      (resp : Response) (e : Err),
      env "AZURE_AI_PROJECT_ENDPOINT" = some ep →
      env "AZURE_AI_AGENT_NAME" = some agent_name →
      C.credential = .ok () →
      C.projectClient ep = .ok () →
      C.openaiClient = .ok () →
      C.getAgent agent_name = .ok agent →
      C.conversationsCreate = .ok conv →
      C.responsesCreate (some conv.id)
        (.text "Please summarize latest features of Azure Cosmos DB from Microsoft Learn.")
        none agent.name = .ok resp →
      C.responsesCreate none (.items (approvalLoopExisting [] resp.output))
        (some resp.id) agent.name = .error e →
      runExisting env C =
        (.error e,
         [Event.envRead "AZURE_AI_PROJECT_ENDPOINT",
          Event.envRead "AZURE_AI_AGENT_NAME",
          Event.call .defaultAzureCredential,
          Event.call (.aiProjectClient ep),
          Event.call .getOpenAIClient,
          Event.call (.getAgent agent_name),
          Event.call .conversationsCreate,
          Event.call (.responsesCreate (some conv.id)
            (.text "Please summarize latest features of Azure Cosmos DB from Microsoft Learn.")
            none agent.name),
          Event.call (.responsesCreate none
            (.items (approvalLoopExisting [] resp.output)) (some resp.id)
            agent.name)])) := by
  refine ⟨?_, ?_, ?_, ?_, ?_, ?_, ?_, ?_, ?_, ?_⟩
  · intro env C ep e h1 he
    simp only [runCreate, h1, he]
  · intro env C ep tok model e h1 h2 h3 h4 h5 h6 he
    simp only [runCreate, h1, h2, h3, h4, h5, h6, he]
  · intro env C ep tok model agent e h1 h2 h3 h4 h5 h6 h7 he
    simp only [runCreate, h1, h2, h3, h4, h5, h6, h7, he]
  · intro env C ep tok model agent conv e h1 h2 h3 h4 h5 h6 h7 h8 he
    simp only [runCreate, h1, h2, h3, h4, h5, h6, h7, h8, he]
  · intro env C ep tok model agent conv resp e h1 h2 h3 h4 h5 h6 h7 h8 h9 he
    simp only [runCreate, resubmit, h1, h2, h3, h4, h5, h6, h7, h8, h9, he]
    rfl
  · intro env C ep agent_name e h1 h2 he
    simp only [runExisting, h1, h2, he]
  · intro env C ep agent_name e h1 h2 h4 h5 h6 he
    simp only [runExisting, h1, h2, h4, h5, h6, he]
  · intro env C ep agent_name agent e h1 h2 h4 h5 h6 h7 he
    simp only [runExisting, h1, h2, h4, h5, h6, h7, he]
  · intro env C ep agent_name agent conv e h1 h2 h4 h5 h6 h7 h8 he
    simp only [runExisting, h1, h2, h4, h5, h6, h7, h8, he]
  · intro env C ep agent_name agent conv resp e h1 h2 h4 h5 h6 h7 h8 h9 he
    simp only [runExisting, resubmit, h1, h2, h4, h5, h6, h7, h8, h9, he]
    rfl

theorem c8_witness :
    runCreate envAll CallConvFail =
      (.error (.remote "conversation service unavailable"),
       [Event.envRead "AZURE_AI_PROJECT_ENDPOINT",
        Event.call .defaultAzureCredential,
        Event.call (.aiProjectClient "https://example-endpoint"),
        Event.call .getOpenAIClient,
        Event.envRead "CUSTOM_MCP_BEARER_TOKEN",
        Event.envRead "AZURE_AI_MODEL_DEPLOYMENT_NAME",
        Event.call (.createVersion "FoundryNew-MCP-CustomAgent"
          (createAgentDefinition "model-1" "token-1")),
        Event.call .conversationsCreate]) :=
  c8_failure_propagation.2.2.1 envAll CallConvFail "https://example-endpoint"
    "token-1" "model-1" agentA (.remote "conversation service unavailable")
    rfl rfl rfl rfl rfl rfl rfl rfl
